import Mathlib

/-!
Verification of the adaptive analytics engine of the `brain` repository
(backend/services/causal_inference_service.py, backend/ml/adaptive_predictor.py,
backend/ml/energy_forecaster.py, backend/config.py).

The Python code is shallowly embedded: every numeric quantity is modelled as an
exact rational (`ℚ`).  Python's `round(x, k)` (round-half-to-even on the value)
is modelled by `pyRound`; `numpy` means, population variances, covariances and
medians are modelled by `mean`, `pvar`, `covL`, `npMedian`.  Pearson's
correlation coefficient `r = cov/(σ₁σ₂)` is irrational in general, so the
correlation records carry its square `r² = cov²/(var₁·var₂)` (an exact
rational) together with the sign of the covariance; all verified properties of
`r` (bounds, strength classes, the t-statistic significance test) are functions
of `r²` and that sign, and theorems about the real-valued `r` itself go through
`Real.sqrt` of the stored square.
-/

/-- Round-half-to-even of a rational to an integer (Python's `round(x)` on an
exact value; Python applies this rule to the binary double nearest `x`, which
agrees with the exact rule whenever `x` is not at a representation boundary —
all concrete values appearing in this development are far from such
boundaries). -/
def roundHalfEven (x : ℚ) : ℤ :=
  if Int.fract x < 1/2 then ⌊x⌋
  else if 1/2 < Int.fract x then ⌊x⌋ + 1
  else if ⌊x⌋ % 2 = 0 then ⌊x⌋ else ⌊x⌋ + 1

/-- Python's `round(x, k)`: round-half-to-even at the `k`-th decimal place. -/
def pyRound (x : ℚ) (k : ℕ) : ℚ :=
  (roundHalfEven (x * 10 ^ k) : ℚ) / 10 ^ k

/-- `numpy.mean` of a list of rationals (0 on the empty list; every call site
in the embedded code guards against the empty list). -/
def mean (l : List ℚ) : ℚ := l.sum / l.length

/-- `numpy.std(l) ** 2`: the population variance.  `numpy.std(l) == 0` is
modelled as `pvar l = 0`. -/
def pvar (l : List ℚ) : ℚ := mean (l.map (fun x => (x - mean l) ^ 2))

/-- Population covariance of a list of pairs (the off-diagonal entry of
`numpy.cov(·, ·, bias=True)`; `numpy.corrcoef` equals this divided by the two
standard deviations). -/
def covL (ps : List (ℚ × ℚ)) : ℚ :=
  mean (ps.map (fun p =>
    (p.1 - mean (ps.map Prod.fst)) * (p.2 - mean (ps.map Prod.snd))))

/-- `numpy.median`: middle element of the sorted list, or the average of the
two middle elements for even length (0 on the empty list; call sites guard). -/
def npMedian (l : List ℚ) : ℚ :=
  let s := List.insertionSort (· ≤ ·) l
  let n := s.length
  if n % 2 = 1 then s.getD (n / 2) 0
  else (s.getD (n / 2 - 1) 0 + s.getD (n / 2) 0) / 2

/-- `numpy.max` of a list (0 on the empty list; call sites guard). -/
def listMax (l : List ℚ) : ℚ := l.foldr max 0

section RoundLemmas

theorem roundHalfEven_sub_le (x : ℚ) : (roundHalfEven x : ℚ) - x ≤ 1/2 := by
  unfold roundHalfEven
  have hfr : Int.fract x = x - ⌊x⌋ := rfl
  have h0 : (0:ℚ) ≤ Int.fract x := Int.fract_nonneg x
  have h1 : Int.fract x < 1 := Int.fract_lt_one x
  split_ifs <;> push_cast <;> linarith

theorem le_roundHalfEven_add (x : ℚ) : x - 1/2 ≤ (roundHalfEven x : ℚ) := by
  unfold roundHalfEven
  have hfr : Int.fract x = x - ⌊x⌋ := rfl
  have h0 : (0:ℚ) ≤ Int.fract x := Int.fract_nonneg x
  have h1 : Int.fract x < 1 := Int.fract_lt_one x
  split_ifs <;> push_cast <;> linarith

theorem roundHalfEven_mono {x y : ℚ} (h : x ≤ y) :
    roundHalfEven x ≤ roundHalfEven y := by
  have hfx : Int.fract x = x - ⌊x⌋ := rfl
  have hfy : Int.fract y = y - ⌊y⌋ := rfl
  have h0x : (0:ℚ) ≤ Int.fract x := Int.fract_nonneg x
  have h1x : Int.fract x < 1 := Int.fract_lt_one x
  have h0y : (0:ℚ) ≤ Int.fract y := Int.fract_nonneg y
  have h1y : Int.fract y < 1 := Int.fract_lt_one y
  have hfl : ⌊x⌋ ≤ ⌊y⌋ := Int.floor_le_floor h
  rcases lt_or_eq_of_le hfl with hlt | heq
  · -- different floors: roundHalfEven x ≤ ⌊x⌋ + 1 ≤ ⌊y⌋ ≤ roundHalfEven y
    have hx_le : roundHalfEven x ≤ ⌊x⌋ + 1 := by
      unfold roundHalfEven; split_ifs <;> omega
    have hy_ge : ⌊y⌋ ≤ roundHalfEven y := by
      unfold roundHalfEven; split_ifs <;> omega
    omega
  · -- same floor: compare fractional parts
    have hfr_le : Int.fract x ≤ Int.fract y := by
      rw [hfx, hfy, ← heq]; linarith
    unfold roundHalfEven
    rw [← heq]
    split_ifs <;> first | omega | linarith

theorem pyRound_le_pyRound {x y : ℚ} (k : ℕ) (h : x ≤ y) :
    pyRound x k ≤ pyRound y k := by
  unfold pyRound
  have hp : (0:ℚ) < 10 ^ k := by positivity
  have := roundHalfEven_mono (mul_le_mul_of_nonneg_right h (le_of_lt hp))
  exact div_le_div_of_nonneg_right (by exact_mod_cast this) hp.le

theorem pyRound_intCast (z : ℤ) (k : ℕ) : pyRound (z : ℚ) k = z := by
  unfold pyRound roundHalfEven
  have hz : ((z : ℚ) * 10 ^ k) = ((z * 10 ^ k : ℤ) : ℚ) := by push_cast; ring
  rw [hz, Int.fract_intCast, Int.floor_intCast]
  have hp : (0:ℚ) < 10 ^ k := by positivity
  norm_num

end RoundLemmas

section CauchySchwarz

theorem cs_step (a b S A B : ℚ) (hA : 0 ≤ A) (hB : 0 ≤ B) (ih : S ^ 2 ≤ A * B) :
    (a * b + S) ^ 2 ≤ (a ^ 2 + A) * (b ^ 2 + B) := by
  rcases eq_or_lt_of_le hA with hA0 | hApos
  · have hS0 : S = 0 := by nlinarith [sq_nonneg S]
    subst hS0
    rw [← hA0]
    nlinarith [mul_nonneg (sq_nonneg a) hB]
  · have key : A * ((a ^ 2 + A) * (b ^ 2 + B) - (a * b + S) ^ 2) =
        (a * S - A * b) ^ 2 + a ^ 2 * (A * B - S ^ 2) + A * (A * B - S ^ 2) := by
      ring
    have h2 : 0 ≤ A * B - S ^ 2 := by linarith
    have h1 : 0 ≤ A * ((a ^ 2 + A) * (b ^ 2 + B) - (a * b + S) ^ 2) := by
      rw [key]
      have h3 : 0 ≤ a ^ 2 * (A * B - S ^ 2) := mul_nonneg (sq_nonneg a) h2
      have h4 : 0 ≤ A * (A * B - S ^ 2) := mul_nonneg hA h2
      nlinarith [sq_nonneg (a * S - A * b)]
    nlinarith [h1]

/-- Discrete Cauchy–Schwarz over a list of pairs. -/
theorem list_cauchy_schwarz (l : List (ℚ × ℚ)) :
    ((l.map (fun p => p.1 * p.2)).sum) ^ 2 ≤
      ((l.map (fun p => p.1 ^ 2)).sum) * ((l.map (fun p => p.2 ^ 2)).sum) := by
  induction l with
  | nil => simp
  | cons hd tl ih =>
    have hA : 0 ≤ (tl.map (fun p => p.1 ^ 2)).sum := by
      apply List.sum_nonneg; intro x hx
      obtain ⟨y, _, rfl⟩ := List.mem_map.1 hx; positivity
    have hB : 0 ≤ (tl.map (fun p => p.2 ^ 2)).sum := by
      apply List.sum_nonneg; intro x hx
      obtain ⟨y, _, rfl⟩ := List.mem_map.1 hx; positivity
    simp only [List.map_cons, List.sum_cons]
    exact cs_step hd.1 hd.2 _ _ _ hA hB ih

theorem pvar_nonneg (l : List ℚ) : 0 ≤ pvar l := by
  unfold pvar mean
  apply div_nonneg
  · apply List.sum_nonneg; intro x hx
    obtain ⟨y, _, rfl⟩ := List.mem_map.1 hx; positivity
  · positivity

/-- The squared covariance is bounded by the product of the two variances
(hence the Pearson coefficient squared is at most 1). -/
theorem covL_sq_le (ps : List (ℚ × ℚ)) :
    (covL ps) ^ 2 ≤ pvar (ps.map Prod.fst) * pvar (ps.map Prod.snd) := by
  unfold covL pvar mean
  set μ₁ := (ps.map Prod.fst).sum / (ps.map Prod.fst).length
  set μ₂ := (ps.map Prod.snd).sum / (ps.map Prod.snd).length
  have hlen1 : (ps.map Prod.fst).length = ps.length := List.length_map _ _
  have hlen2 : (ps.map Prod.snd).length = ps.length := List.length_map _ _
  -- rewrite the three sums as sums over the centered pair list
  have hS : ((ps.map (fun p => (p.1 - μ₁) * (p.2 - μ₂))).sum) =
      (((ps.map (fun p => (p.1 - μ₁, p.2 - μ₂))).map (fun p => p.1 * p.2)).sum) := by
    rw [List.map_map]; rfl
  have hA : (((ps.map Prod.fst).map (fun x => (x - μ₁) ^ 2)).sum) =
      (((ps.map (fun p => (p.1 - μ₁, p.2 - μ₂))).map (fun p => p.1 ^ 2)).sum) := by
    rw [List.map_map, List.map_map]; rfl
  have hB : (((ps.map Prod.snd).map (fun x => (x - μ₂) ^ 2)).sum) =
      (((ps.map (fun p => (p.1 - μ₁, p.2 - μ₂))).map (fun p => p.2 ^ 2)).sum) := by
    rw [List.map_map, List.map_map]; rfl
  have hcs := list_cauchy_schwarz (ps.map (fun p => (p.1 - μ₁, p.2 - μ₂)))
  rw [hS, hA, hB]
  simp only [List.length_map]
  set q := ps.map (fun p => (p.1 - μ₁, p.2 - μ₂)) with hq
  set S := (q.map (fun p => p.1 * p.2)).sum
  set A := (q.map (fun p => p.1 ^ 2)).sum
  set B := (q.map (fun p => p.2 ^ 2)).sum
  rw [div_pow, div_mul_div_comm, ← pow_two ((ps.length : ℚ))]
  have hden : (0:ℚ) ≤ (ps.length : ℚ) ^ 2 := by positivity
  exact div_le_div_of_nonneg_right hcs hden

end CauchySchwarz

/-! ## Data model

`_build_daily_dataset` (causal_inference_service.py) produces one dict per day
that has mood data.  `mood` is therefore always present; `energy`, `stress`,
`sleep_hours` and `avg_social_impact` may be absent (`None`), modelled as
`Option ℚ`; the habit/context/social counters are always set by the builder,
so they are plain rationals. -/

inductive Feature where
  | mood
  | energy
  | stress
  | sleep_hours
  | habits_completed
  | habits_total
  | context_switches
  | deep_work_minutes
  | interruptions
  | social_interactions
  | avg_social_impact
deriving DecidableEq

structure DailyRecord where
  mood : ℚ
  energy : Option ℚ
  stress : Option ℚ
  sleep_hours : Option ℚ
  habits_completed : ℚ
  habits_total : ℚ
  context_switches : ℚ
  deep_work_minutes : ℚ
  interruptions : ℚ
  social_interactions : ℚ
  avg_social_impact : Option ℚ
deriving DecidableEq

/-- `d.get(feature)` on a daily-dataset row. -/
def rget (d : DailyRecord) : Feature → Option ℚ
  | .mood => some d.mood
  | .energy => d.energy
  | .stress => d.stress
  | .sleep_hours => d.sleep_hours
  | .habits_completed => some d.habits_completed
  | .habits_total => some d.habits_total
  | .context_switches => some d.context_switches
  | .deep_work_minutes => some d.deep_work_minutes
  | .interruptions => some d.interruptions
  | .social_interactions => some d.social_interactions
  | .avg_social_impact => d.avg_social_impact

/-- The candidate features of `get_correlations`, in evaluation order. -/
def featuresList : List Feature :=
  [.energy, .stress, .sleep_hours, .habits_completed, .context_switches,
   .deep_work_minutes, .interruptions, .social_interactions, .avg_social_impact]

/-! ## Correlation engine (`get_correlations`) -/

/-- The paired (mood, feature) samples over rows where the feature is present
(`[(m, v) for m, v in zip(mood_values, values) if v is not None]`). -/
def corrPairs (ds : List DailyRecord) (f : Feature) : List (ℚ × ℚ) :=
  ds.filterMap (fun d => (rget d f).map (fun v => (d.mood, v)))

/-- `_correlation_strength`, expressed on the squared coefficient:
`|r| ≥ 0.7 ↔ r² ≥ 0.49`, `|r| ≥ 0.4 ↔ r² ≥ 0.16`, `|r| ≥ 0.2 ↔ r² ≥ 0.04`. -/
def correlation_strength_sq (rsq : ℚ) : String :=
  if 49/100 ≤ rsq then "strong"
  else if 4/25 ≤ rsq then "moderate"
  else if 1/25 ≤ rsq then "weak"
  else "negligible"

/-- One row of the correlation output.  The source's `correlation` field is
`round(r, 3)` where `r = cov/(σ_mood·σ_feature)` is irrational in general;
the record instead carries the exact square `corrSq = cov²/(var·var)` and the
covariance sign `covPos` (`r = (if covPos then 1 else -1)·√corrSq`).  All
other fields are computed from `corrSq`/`covPos` exactly as the source
computes them from `r`. -/
structure CorrelationRecord where
  feature : Feature
  corrSq : ℚ
  covPos : Bool
  strength : String
  direction : String
  significant : Bool
  sample_size : ℕ
deriving DecidableEq

/-- The body of the per-feature loop of `get_correlations`: `none` models
`continue` (fewer than 5 pairs, or a zero-variance series; the `isnan` guard
of the source cannot fire once both variances are nonzero, since the exact
coefficient is then well defined).  The significance test
`significant = |t| > 2.0` with `t = r·√((n−2)/(1−r²))` for `|r| < 1` and
`t = inf` otherwise is expressed through `r²`: for `r² < 1` it is
`r²·(n−2) > 4·(1−r²)`. -/
def corrEntry (ds : List DailyRecord) (f : Feature) : Option CorrelationRecord :=
  let pairs := corrPairs ds f
  if pairs.length < 5 then none
  else
    let ms := pairs.map Prod.fst
    let vs := pairs.map Prod.snd
    if pvar ms = 0 ∨ pvar vs = 0 then none
    else
      let c := covL pairs
      let rsq := c ^ 2 / (pvar ms * pvar vs)
      let n := pairs.length
      some { feature := f
             corrSq := rsq
             covPos := decide (0 < c)
             strength := correlation_strength_sq rsq
             direction := if 0 < c then "positive" else "negative"
             significant := if 1 ≤ rsq then true
                            else decide (4 * (1 - rsq) < rsq * ((n : ℚ) - 2))
             sample_size := n }

structure CorrOutput where
  correlations : List CorrelationRecord
  sample_size : ℕ
  message : Option String
deriving DecidableEq

/-- `get_correlations` (without the DB query: it takes the built daily
dataset).  The source sorts by `abs(round(r, 3))` descending with a stable
sort; the model sorts by `corrSq` descending (the same order except possibly
among entries whose `|r|` agree to 3 decimal places — no verified claim
depends on the order). -/
def get_correlations (ds : List DailyRecord) : CorrOutput :=
  if ds.length < 10 then
    { correlations := []
      sample_size := ds.length
      message := some "Need at least 10 days of data for correlation analysis." }
  else
    { correlations :=
        List.insertionSort (fun a b => b.corrSq ≤ a.corrSq)
          (featuresList.filterMap (corrEntry ds))
      sample_size := ds.length
      message := none }

/-! ## Causal estimator (`get_causal_analysis` / `_stratified_analysis`)

DoWhy is an optional dependency that is absent in this deployment
(`_check_dowhy` catches the `ImportError`), so `get_causal_analysis` always
takes the `_stratified_analysis` branch; `_dowhy_analysis` would also fall
back to `_stratified_analysis` on any failure. -/

/-- `_effect_magnitude`, expressed on the squared Cohen's d:
`|d| ≥ 0.8 ↔ d² ≥ 0.64`, `|d| ≥ 0.5 ↔ d² ≥ 0.25`, `|d| ≥ 0.2 ↔ d² ≥ 0.04`. -/
def effect_magnitude_sq (dsq : ℚ) : String :=
  if 16/25 ≤ dsq then "large"
  else if 1/4 ≤ dsq then "medium"
  else if 1/25 ≤ dsq then "small"
  else "negligible"

/-- The result dict of `_stratified_analysis` on success.  The source's
`effect_size_cohens_d` field is `round(effect/√pooledVar, 2)` (irrational
before rounding); the record carries the exact square `cohensDSq = d²`
instead (0 when the pooled standard deviation is 0, as in the source), and
`effect_magnitude` is classified from it exactly as the source classifies the
unrounded `d`.  The `interpretation` prose field is omitted (pure string
formatting of already-present numbers). -/
structure CausalEstimate where
  method : String
  median_split : ℚ
  high_group_mean : ℚ
  low_group_mean : ℚ
  estimated_effect : ℚ
  cohensDSq : ℚ
  effect_magnitude : String
  high_group_n : ℕ
  low_group_n : ℕ
  caution : String
deriving DecidableEq

inductive CausalResult where
  | insufficientData (msg : String)
  | insufficientValid (msg : String)
  | stratifyErr (msg : String)
  | estimate (e : CausalEstimate)
deriving DecidableEq

/-- Outcome values of the `d[treatment] >= median` rows. -/
def highGroup (ps : List (ℚ × ℚ)) : List ℚ :=
  (ps.filter (fun p => decide (npMedian (ps.map Prod.fst) ≤ p.1))).map Prod.snd

/-- Outcome values of the `d[treatment] < median` rows. -/
def lowGroup (ps : List (ℚ × ℚ)) : List ℚ :=
  (ps.filter (fun p => decide (p.1 < npMedian (ps.map Prod.fst)))).map Prod.snd

/-- `_stratified_analysis`, on the list of (treatment value, outcome value)
pairs of the valid rows (the only row data the source function reads). -/
def stratified_analysis (ps : List (ℚ × ℚ)) : CausalResult :=
  let median := npMedian (ps.map Prod.fst)
  let high_group := highGroup ps
  let low_group := lowGroup ps
  if high_group = [] ∨ low_group = [] then
    .stratifyErr "Cannot stratify data — all values on one side of median."
  else
    let high_mean := mean high_group
    let low_mean := mean low_group
    let effect := high_mean - low_mean
    let pooledVar := (pvar high_group + pvar low_group) / 2
    let dsq := if 0 < pooledVar then effect ^ 2 / pooledVar else 0
    .estimate
      { method := "stratified_analysis"
        median_split := pyRound median 2
        high_group_mean := pyRound high_mean 2
        low_group_mean := pyRound low_mean 2
        estimated_effect := pyRound effect 2
        cohensDSq := dsq
        effect_magnitude := effect_magnitude_sq dsq
        high_group_n := high_group.length
        low_group_n := low_group.length
        caution := "This is an observational analysis, not a controlled experiment. Confounding variables may exist." }

/-- `get_causal_analysis` (without the DB query: it takes the built daily
dataset and the treatment/outcome keys). -/
def get_causal_analysis (ds : List DailyRecord) (treatment outcome : Feature) :
    CausalResult :=
  if ds.length < 15 then
    .insufficientData "Need at least 15 days of data for causal analysis."
  else
    let valid := ds.filter (fun d =>
      (rget d treatment).isSome && (rget d outcome).isSome)
    if valid.length < 10 then
      .insufficientValid "Insufficient valid data"
    else
      stratified_analysis (valid.map (fun d =>
        ((rget d treatment).getD 0, (rget d outcome).getD 0)))

def CausalResult.effectField : CausalResult → Option ℚ
  | .estimate e => some e.estimated_effect
  | _ => none

def CausalResult.highMeanField : CausalResult → Option ℚ
  | .estimate e => some e.high_group_mean
  | _ => none

def CausalResult.lowMeanField : CausalResult → Option ℚ
  | .estimate e => some e.low_group_mean
  | _ => none

/-! ## Counterfactual generators -/

/-- A counterfactual dict.  The `scenario` prose field is omitted (string
formatting of already-present numbers). -/
structure Counterfactual where
  type : String
  current_avg : ℚ
  predicted_avg : ℚ
  change : ℚ
  confidence : String
deriving DecidableEq

/-- Pairs of `_sleep_counterfactual`:
`[(d["sleep_hours"], d["mood"]) for d in dataset if d.get("sleep_hours") and d.get("mood")]`.
Python truthiness: a missing key, `None`, and the value `0` all fail the
filter. -/
def sleepPairs (ds : List DailyRecord) : List (ℚ × ℚ) :=
  ds.filterMap (fun d =>
    match d.sleep_hours with
    | some s => if s ≠ 0 ∧ d.mood ≠ 0 then some (s, d.mood) else none
    | none => none)

/-- Pairs of `_habits_counterfactual`: the filter is
`d.get("habits_completed") is not None and d.get("mood")` — the
`habits_completed` test is non-`None`-ness (always true on builder rows,
where the key is always set, including at the value 0), only `mood` is tested
for truthiness. -/
def habitsPairs (ds : List DailyRecord) : List (ℚ × ℚ) :=
  ds.filterMap (fun d =>
    if d.mood ≠ 0 then some (d.habits_completed, d.mood) else none)

/-- Pairs of `_deep_work_counterfactual`: the filter is
`d.get("deep_work_minutes") and d.get("mood")` — truthiness of both, so a
day with 0 deep-work minutes is excluded. -/
def dwPairs (ds : List DailyRecord) : List (ℚ × ℚ) :=
  ds.filterMap (fun d =>
    if d.deep_work_minutes ≠ 0 ∧ d.mood ≠ 0 then
      some (d.deep_work_minutes, d.mood)
    else none)

/-- The slope `corrcoef(x, y)·std(y)/std(x)` of the source, which equals
`cov(x,y)/var(x)` exactly (`(cov/(σₓσ_y))·σ_y/σₓ = cov/σₓ²`); the latter form
is rational and is the one embedded. -/
def slopeOf (ps : List (ℚ × ℚ)) : ℚ := covL ps / pvar (ps.map Prod.fst)

/-- `_sleep_counterfactual`. -/
def sleep_counterfactual (ds : List DailyRecord) : Option Counterfactual :=
  let pairs := sleepPairs ds
  if pairs.length < 5 then none
  else if pvar (pairs.map Prod.fst) = 0 then none
  else
    let slope := slopeOf pairs
    let avg_sleep := mean (pairs.map Prod.fst)
    let avg_mood := mean (pairs.map Prod.snd)
    let predicted := max 1 (min 10 (avg_mood + slope * (8 - avg_sleep)))
    if |slope| < 1/20 then none
    else some
      { type := "sleep"
        current_avg := pyRound avg_mood 1
        predicted_avg := pyRound predicted 1
        change := pyRound (predicted - avg_mood) 1
        confidence := if 20 ≤ pairs.length then "moderate" else "low" }

/-- `_habits_counterfactual`. -/
def habits_counterfactual (ds : List DailyRecord) : Option Counterfactual :=
  let pairs := habitsPairs ds
  if pairs.length < 5 then none
  else if pvar (pairs.map Prod.fst) = 0 then none
  else
    let slope := slopeOf pairs
    let avg_habits := mean (pairs.map Prod.fst)
    let avg_mood := mean (pairs.map Prod.snd)
    let max_habits := listMax (pairs.map Prod.fst)
    if max_habits ≤ avg_habits then none
    else
      let predicted := max 1 (min 10 (avg_mood + slope * (max_habits - avg_habits)))
      if |slope| < 1/20 then none
      else some
        { type := "habits"
          current_avg := pyRound avg_mood 1
          predicted_avg := pyRound predicted 1
          change := pyRound (predicted - avg_mood) 1
          confidence := if 20 ≤ pairs.length then "moderate" else "low" }

/-- `_deep_work_counterfactual`. -/
def deep_work_counterfactual (ds : List DailyRecord) : Option Counterfactual :=
  let pairs := dwPairs ds
  if pairs.length < 5 then none
  else if pvar (pairs.map Prod.fst) = 0 then none
  else
    let slope := slopeOf pairs
    let avg_dw := mean (pairs.map Prod.fst)
    let avg_mood := mean (pairs.map Prod.snd)
    let predicted := max 1 (min 10 (avg_mood + slope * (120 - avg_dw)))
    if |slope| < 1/100 then none
    else some
      { type := "deep_work"
        current_avg := pyRound avg_mood 1
        predicted_avg := pyRound predicted 1
        change := pyRound (predicted - avg_mood) 1
        confidence := if 20 ≤ pairs.length then "moderate" else "low" }

/-- `generate_counterfactuals` (without the DB query). -/
def generate_counterfactuals (ds : List DailyRecord) : List Counterfactual :=
  if ds.length < 10 then []
  else
    [sleep_counterfactual ds, habits_counterfactual ds,
     deep_work_counterfactual ds].filterMap id

/-! ## Adaptive predictors (`adaptive_predictor.py`)

Calendar dates are embedded as integer day numbers with
`weekday(d) = d % 7`; only weekday equality and date comparisons are ever
used by the embedded code, so any 7-periodic labelling works.  The
`message`/`factors` entries of the returned dicts are prose built from
numbers already present in the other fields and are omitted from the
records.  The `use_prediction` key is present in some result dicts and
absent in others; it is modelled as an `Option Bool` (`none` = key absent). -/

structure MoodLog where
  log_date : ℤ
  mood_value : ℚ
deriving DecidableEq

structure MoodPredResult where
  prediction : ℚ
  confidence : ℚ
  method : String
  use_prediction : Option Bool
deriving DecidableEq

/-- `_simple_average_mood`: mean mood over logs of the last 7 days
(`log_date >= today - 7`), or the neutral default 7.0 when there are none. -/
def simple_average_mood (logs : List MoodLog) (today : ℤ) : ℚ :=
  let last_week := logs.filter (fun m => decide (today - 7 ≤ m.log_date))
  if last_week = [] then 7 else mean (last_week.map (·.mood_value))

/-- `_mood_baseline`: day-of-week average, falling back to the overall
average, falling back to the constant 7.0.  None of the three branches sets
`use_prediction`. -/
def mood_baseline (logs : List MoodLog) (target : ℤ) : MoodPredResult :=
  let filtered := logs.filter (fun m => decide (m.log_date % 7 = target % 7))
  if filtered = [] then
    if logs = [] then
      { prediction := 7, confidence := 1/10, method := "default",
        use_prediction := none }
    else
      { prediction := pyRound (mean (logs.map (·.mood_value))) 1
        confidence := min ((logs.length : ℚ) / 20) (3/5)
        method := "overall_average"
        use_prediction := none }
  else
    { prediction := pyRound (mean (filtered.map (·.mood_value))) 1
      confidence := min ((filtered.length : ℚ) / 10) (4/5)
      method := "day_of_week_average"
      use_prediction := none }

/-- `_ml_mood_prediction`.  The RandomForest regressor is an external library
(scikit-learn); `rf` is the outcome of its fit-and-predict: `some v` a
successful prediction value, `none` any exception raised inside the `try`
(e.g. the library being absent), whose handler returns `_mood_baseline` —
without a `use_prediction` key. -/
def ml_mood_prediction (rf : Option ℚ) (logs : List MoodLog) (target : ℤ) :
    MoodPredResult :=
  if logs.length < 100 then mood_baseline logs target
  else
    match rf with
    | some v =>
        { prediction := pyRound v 1, confidence := 7/10,
          method := "random_forest", use_prediction := some true }
    | none => mood_baseline logs target

/-- `predict_mood`.  `target` is the outcome of
`datetime.strptime(target_date, "%Y-%m-%d")`: `some t` when the request's
date string parses (embedded as a day number), `none` when it raises
`ValueError` — which the outer `except` turns into the `"fallback"` result.
`ML_MIN_SAMPLES["mood"] = 30` (config.py); `threshold` is
`confidence_threshold` (0.5 at every call site). -/
def predict_mood (rf : Option ℚ) (logs : List MoodLog) (today : ℤ)
    (target : Option ℤ) (threshold : ℚ) : MoodPredResult :=
  if logs.length < 30 then
    { prediction := simple_average_mood logs today, confidence := 3/10,
      method := "simple_average", use_prediction := some false }
  else
    match target with
    | none =>
        { prediction := simple_average_mood logs today, confidence := 1/5,
          method := "fallback", use_prediction := some false }
    | some t =>
        if logs.length < 100 then
          let b := mood_baseline logs t
          { b with use_prediction := some (decide (threshold ≤ b.confidence)) }
        else ml_mood_prediction rf logs t

structure HabitLog where
  log_date : ℤ
  completed : Bool
  log_hour : Option ℕ
deriving DecidableEq

/-- Completion rate `sum(1 for log in logs if log.completed) / len(logs)`. -/
def overallRate (logs : List HabitLog) : ℚ :=
  (logs.countP (·.completed) : ℚ) / logs.length

/-- The logs that fall on the target date's weekday. -/
def dowHabitLogs (logs : List HabitLog) (target : ℤ) : List HabitLog :=
  logs.filter (fun l => decide (l.log_date % 7 = target % 7))

/-- The logs whose `log_time` is set and has the given hour. -/
def hourHabitLogs (logs : List HabitLog) (h : ℕ) : List HabitLog :=
  logs.filter (fun l => l.log_hour = some h)

/-- Current streak: leading completed logs after sorting by date descending
(Python's `sorted(..., reverse=True)` is stable, as is `insertionSort` with
this total relation). -/
def streakOf (logs : List HabitLog) : ℕ :=
  ((List.insertionSort (fun a b => b.log_date ≤ a.log_date) logs).takeWhile
    (·.completed)).length

structure HabitPredResult where
  prediction : ℚ
  confidence : ℚ
  method : String
  use_prediction : Option Bool
  streak : Option ℕ
deriving DecidableEq

/-- `_habit_baseline`.  `target_hour` is the parsed hour of the optional
`target_time` string (`none` when no time is supplied; an unparseable time
hits `except: pass`, which behaves identically).  No habit path sets
`use_prediction`. -/
def habit_baseline (logs : List HabitLog) (target : ℤ)
    (target_hour : Option ℕ) : HabitPredResult :=
  let overall_rate := overallRate logs
  let dlogs := dowHabitLogs logs target
  let pred1 := if dlogs = [] then overall_rate
               else (overall_rate + overallRate dlogs) / 2
  let pred2 :=
    match target_hour with
    | none => pred1
    | some h =>
        let tlogs := hourHabitLogs logs h
        if tlogs = [] then pred1 else (pred1 + overallRate tlogs) / 2
  { prediction := pyRound pred2 2
    confidence := min ((logs.length : ℚ) / 50) (9/10)
    method := "historical_baseline"
    use_prediction := none
    streak := some (streakOf logs) }

/-- `predict_habit_success`.  `habit` is the DB lookup of the habit by name
(`none` = no such habit) paired with its full log list; `target` is the
outcome of parsing the target-date string.  `ML_MIN_SAMPLES["habit"] = 20`
(config.py).  The result is `none` exactly when the function raises: the
`datetime.strptime` call on the ≥-20-logs path is not wrapped in any
`try`, so an unparseable date propagates a `ValueError` there. -/
def predict_habit_success (habit : Option (List HabitLog))
    (target : Option ℤ) (target_hour : Option ℕ) : Option HabitPredResult :=
  match habit with
  | none =>
      some { prediction := 1/2, confidence := 0, method := "no_data",
             use_prediction := none, streak := none }
  | some logs =>
      if logs.length < 20 then
        if logs = [] then
          some { prediction := 1/2, confidence := 0, method := "no_data",
                 use_prediction := none, streak := none }
        else
          some { prediction := overallRate logs
                 confidence := min ((logs.length : ℚ) / 30) (4/5)
                 method := "overall_historical"
                 use_prediction := none
                 streak := none }
      else
        match target with
        | some t => some (habit_baseline logs t target_hour)
        | none => none

/-! ## Energy forecasting

Two distinct implementations exist in the repository.  The one actually
wired to the `/predictions/energy` endpoint (via
`MLService.get_energy_forecast`) is `AdaptiveMLPredictor.forecast_energy`;
the standalone `EnergyForecaster.forecast` class
(ml/energy_forecaster.py) is never instantiated by any caller. -/

structure JEntry where
  entry_date : ℤ
  energy_level : Option ℚ
deriving DecidableEq

/-- The journal-entry query shared by both forecasters:
`filter(energy_level.isnot(None)).order_by(entry_date.desc()).limit(90)`. -/
def energyEntries (db : List JEntry) : List JEntry :=
  (List.insertionSort (fun a b => b.entry_date ≤ a.entry_date)
    (db.filter (fun e => e.energy_level.isSome))).take 90

def energyVals (entries : List JEntry) : List ℚ :=
  entries.map (fun e => e.energy_level.getD 0)

/-- One forecast-list row of `forecast_energy`.  The low-data branch emits
`{date, energy, confidence}` and the day-of-week branch
`{date, day, energy, confidence}`; neither branch ever emits `lower`/`upper`
keys, so those fields are `none` in every row this function produces. -/
structure ForecastRow where
  date : ℤ
  energy : ℚ
  confidence : Option ℚ
  lower : Option ℚ
  upper : Option ℚ
deriving DecidableEq

structure EnergyForecastOut where
  forecast : List ForecastRow
  method : String
deriving DecidableEq

/-- Mean energy of the entries on weekday `w`, when any exist
(`dow_averages.get(dow, ...)`). -/
def dowEnergyAvg (entries : List JEntry) (w : ℤ) : Option ℚ :=
  let es := entries.filter (fun e => decide (e.entry_date % 7 = w))
  if es = [] then none else some (mean (energyVals es))

/-- `AdaptiveMLPredictor.forecast_energy` (the wired implementation).
`ML_MIN_SAMPLES["energy"] = 40` (config.py).  The `peak_days`/`low_days`/
`overall_average`/`message` summary keys are omitted from the record. -/
def forecast_energy (db : List JEntry) (today : ℤ) (days_ahead : ℕ) :
    EnergyForecastOut :=
  let entries := energyEntries db
  if entries.length < 40 then
    let avg := if entries = [] then 5 else mean (energyVals entries)
    { forecast := (List.range days_ahead).map (fun i =>
        { date := today + i + 1, energy := pyRound avg 1,
          confidence := some (3/10), lower := none, upper := none })
      method := "average" }
  else
    let overall := mean (energyVals entries)
    { forecast := (List.range days_ahead).map (fun i =>
        { date := today + i + 1
          energy := pyRound ((dowEnergyAvg entries ((today + i + 1) % 7)).getD overall) 1
          confidence := some (min ((entries.length : ℚ) / 90) (9/10))
          lower := none
          upper := none })
      method := "day_of_week_average" }

structure EFLowRow where
  date : ℤ
  energy : ℚ
  lower : ℚ
  upper : ℚ
deriving DecidableEq

/-- A day-of-week-branch row of `EnergyForecaster.forecast`.  The emitted
dict is `{date, day, energy: round(avg,1), lower: round(max(1, avg-std),1),
upper: round(min(10, avg+std),1)}` where `std = √bandVar` is irrational in
general; the row stores the exact pair (`bandCenter = avg`,
`bandVar = std²`) that determines the band instead. -/
structure EFDowRow where
  date : ℤ
  energy : ℚ
  bandCenter : ℚ
  bandVar : ℚ
deriving DecidableEq

/-- The two return shapes of `EnergyForecaster.forecast`. -/
inductive EFOut where
  | simpleAverage (rows : List EFLowRow)
  | dayOfWeekPattern (rows : List EFDowRow) (data_points : ℕ)
deriving DecidableEq

def EFOut.lowRows : EFOut → Option (List EFLowRow)
  | .simpleAverage rows => some rows
  | _ => none

/-- `EnergyForecaster.forecast` (the unwired standalone implementation):
its low-data threshold is 7 (not the configured energy minimum of 40), its
low-data rows carry a ±1 `lower`/`upper` band and no `confidence` key. -/
def ef_forecast (db : List JEntry) (today : ℤ) (days_ahead : ℕ) : EFOut :=
  let entries := energyEntries db
  if entries.length < 7 then
    let avg := if entries = [] then 5 else mean (energyVals entries)
    .simpleAverage ((List.range days_ahead).map (fun i =>
      { date := today + i + 1, energy := pyRound avg 1,
        lower := pyRound (avg - 1) 1, upper := pyRound (avg + 1) 1 }))
  else
    let overall := mean (energyVals entries)
    let overallVar := pvar (energyVals entries)
    .dayOfWeekPattern ((List.range days_ahead).map (fun i =>
      let es := entries.filter (fun e =>
        decide (e.entry_date % 7 = (today + i + 1) % 7))
      let avg := if es = [] then overall else mean (energyVals es)
      let v := if es = [] then overallVar
               else if 1 < es.length then pvar (energyVals es) else overallVar
      { date := today + i + 1, energy := pyRound avg 1,
        bandCenter := avg, bandVar := v })) entries.length

/-! ## Supporting lemmas -/

/-- Rounding the exact difference and differencing the rounded values can
disagree, but by at most one unit in the last place. -/
theorem pyRound2_diff_bound (a b : ℚ) :
    |pyRound (a - b) 2 - (pyRound a 2 - pyRound b 2)| ≤ 1/100 := by
  have e1 : ((10:ℚ) ^ (2:ℕ)) = 100 := by norm_num
  unfold pyRound
  rw [e1]
  have hx1 := roundHalfEven_sub_le ((a - b) * 100)
  have hx2 := le_roundHalfEven_add ((a - b) * 100)
  have hy1 := roundHalfEven_sub_le (a * 100)
  have hy2 := le_roundHalfEven_add (a * 100)
  have hz1 := roundHalfEven_sub_le (b * 100)
  have hz2 := le_roundHalfEven_add (b * 100)
  set x := roundHalfEven ((a - b) * 100)
  set y := roundHalfEven (a * 100)
  set z := roundHalfEven (b * 100)
  have hw1 : x - y + z ≤ 1 := by
    by_contra hcon
    push_neg at hcon
    have h2le : 2 ≤ x - y + z := by omega
    have : (2:ℚ) ≤ ((x : ℚ) - y + z) := by exact_mod_cast h2le
    linarith
  have hw2 : -1 ≤ x - y + z := by
    by_contra hcon
    push_neg at hcon
    have h2le : x - y + z ≤ -2 := by omega
    have : ((x : ℚ) - y + z) ≤ -2 := by exact_mod_cast h2le
    linarith
  have hq1 : ((x : ℚ) - y + z) ≤ 1 := by exact_mod_cast hw1
  have hq2 : (-1 : ℚ) ≤ ((x : ℚ) - y + z) := by exact_mod_cast hw2
  rw [abs_le]
  constructor <;> [skip; skip] <;> linarith

theorem pyRound_one_eq (k : ℕ) : pyRound 1 k = 1 := by
  have := pyRound_intCast 1 k
  norm_num at this
  exact this

theorem pyRound_ten_eq (k : ℕ) : pyRound 10 k = 10 := by
  have := pyRound_intCast 10 k
  norm_num at this
  exact this

/-- A value clamped to `[1, 10]` stays in `[1, 10]` after rounding. -/
theorem pyRound_clamp_bounds (x : ℚ) (k : ℕ) :
    1 ≤ pyRound (max 1 (min 10 x)) k ∧ pyRound (max 1 (min 10 x)) k ≤ 10 := by
  constructor
  · have h1 : (1:ℚ) ≤ max 1 (min 10 x) := le_max_left _ _
    calc (1:ℚ) = pyRound 1 k := (pyRound_one_eq k).symm
    _ ≤ _ := pyRound_le_pyRound k h1
  · have h2 : max 1 (min 10 x) ≤ 10 :=
      max_le (by norm_num) (min_le_left _ _)
    calc pyRound (max 1 (min 10 x)) k ≤ pyRound 10 k := pyRound_le_pyRound k h2
    _ = 10 := pyRound_ten_eq k

/-! ## Claim C1 -/

/-- C1 (amended): in every successful stratified analysis, the returned
`estimated_effect` is the 2-decimal rounding of the exact difference of the
(unrounded) group means, whose own 2-decimal roundings are returned as
`high_group_mean` and `low_group_mean`; consequently `estimated_effect` can
differ from `high_group_mean - low_group_mean` as the fields appear in the
returned object, but by at most 0.01. -/
theorem C1_effect_rounding (ps : List (ℚ × ℚ)) (e : CausalEstimate)
    (h : stratified_analysis ps = .estimate e) :
    e.estimated_effect = pyRound (mean (highGroup ps) - mean (lowGroup ps)) 2 ∧
    e.high_group_mean = pyRound (mean (highGroup ps)) 2 ∧
    e.low_group_mean = pyRound (mean (lowGroup ps)) 2 ∧
    |e.estimated_effect - (e.high_group_mean - e.low_group_mean)| ≤ 1/100 := by
  simp only [stratified_analysis] at h
  split_ifs at h
  all_goals
    rw [CausalResult.estimate.injEq] at h
    subst h
    exact ⟨rfl, rfl, rfl,
      pyRound2_diff_bound (mean (highGroup ps)) (mean (lowGroup ps))⟩

/-- A six-day dataset (treatment, outcome): treatment 1 on three days with
outcomes 5.1, 5.2, 5.2 and treatment 2 on three days with outcomes 7.1, 7.1,
7.2. -/
def pairs6 : List (ℚ × ℚ) :=
  [(1, 51/10), (1, 26/5), (1, 26/5), (2, 71/10), (2, 71/10), (2, 36/5)]

/-- The full estimate returned on `pairs6`. -/
def est6 : CausalEstimate :=
  { method := "stratified_analysis"
    median_split := 3/2
    high_group_mean := 713/100
    low_group_mean := 517/100
    estimated_effect := 197/100
    cohensDSq := 3481/2
    effect_magnitude := "large"
    high_group_n := 3
    low_group_n := 3
    caution := "This is an observational analysis, not a controlled experiment. Confounding variables may exist." }

/-- The evaluation of the stratified analysis on `pairs6`. -/
theorem stratified_pairs6_eval : stratified_analysis pairs6 = .estimate est6 := by
  norm_num [stratified_analysis, highGroup, lowGroup, npMedian, mean, pvar,
    covL, pairs6, est6, pyRound, roundHalfEven, Int.fract,
    List.insertionSort, List.orderedInsert, effect_magnitude_sq]
  try rintro (hc | hc) <;> simp at hc

/-- C1 counterexample: on `pairs6` the stratified analysis succeeds and
returns `estimated_effect = 1.97` (the rounding of the exact effect
59/30 = 1.9666…), but `high_group_mean - low_group_mean = 7.13 - 5.17 =
1.96` as the fields appear in the returned object, so the claimed exact
field-level identity fails. -/
theorem C1_counterexample :
    (stratified_analysis pairs6).effectField = some (197/100) ∧
    (stratified_analysis pairs6).highMeanField = some (713/100) ∧
    (stratified_analysis pairs6).lowMeanField = some (517/100) ∧
    (197 : ℚ)/100 ≠ 713/100 - 517/100 := by
  rw [stratified_pairs6_eval]
  refine ⟨rfl, rfl, rfl, by norm_num⟩

theorem C1_witness :
    stratified_analysis pairs6 = .estimate est6 ∧
    (est6.estimated_effect = pyRound (mean (highGroup pairs6) - mean (lowGroup pairs6)) 2 ∧
     est6.high_group_mean = pyRound (mean (highGroup pairs6)) 2 ∧
     est6.low_group_mean = pyRound (mean (lowGroup pairs6)) 2 ∧
     |est6.estimated_effect - (est6.high_group_mean - est6.low_group_mean)| ≤ 1/100) :=
  ⟨stratified_pairs6_eval, C1_effect_rounding pairs6 est6 stratified_pairs6_eval⟩

/-! ## Claim C10 -/

/-- C10: a daily row whose `sleep_hours` is exactly 0 (resp. whose
`deep_work_minutes` is exactly 0) is excluded from the sleep (resp.
deep-work) paired samples — the filters test Python truthiness, not
presence — and therefore contributes neither to the slope estimate nor to
the pair count that upgrades the confidence label (the whole counterfactual
result is unchanged by such a row); the habits counterfactual, whose filter
tests `habits_completed` only for non-`None`-ness, does include zero-valued
rows as pairs `(0, mood)`. -/
theorem C10_zero_rows (d : DailyRecord) (ds : List DailyRecord) :
    (d.sleep_hours = some 0 →
       sleepPairs (d :: ds) = sleepPairs ds ∧
       sleep_counterfactual (d :: ds) = sleep_counterfactual ds) ∧
    (d.deep_work_minutes = 0 →
       dwPairs (d :: ds) = dwPairs ds ∧
       deep_work_counterfactual (d :: ds) = deep_work_counterfactual ds) ∧
    (d.habits_completed = 0 → d.mood ≠ 0 →
       habitsPairs (d :: ds) = (0, d.mood) :: habitsPairs ds) := by
  refine ⟨fun h => ?_, fun h => ?_, fun h hm => ?_⟩
  · have hp : sleepPairs (d :: ds) = sleepPairs ds := by
      simp [sleepPairs, List.filterMap_cons, h]
    exact ⟨hp, by simp only [sleep_counterfactual, hp]⟩
  · have hp : dwPairs (d :: ds) = dwPairs ds := by
      simp [dwPairs, List.filterMap_cons, h]
    exact ⟨hp, by simp only [deep_work_counterfactual, hp]⟩
  · simp [habitsPairs, List.filterMap_cons, h, hm]

/-- A daily row with no optional data and all counters 0. -/
def baseRec : DailyRecord :=
  { mood := 5, energy := none, stress := none, sleep_hours := none,
    habits_completed := 0, habits_total := 0, context_switches := 0,
    deep_work_minutes := 0, interruptions := 0, social_interactions := 0,
    avg_social_impact := none }

/-- A day with exactly 0 recorded sleep hours, 0 deep-work minutes and 0
completed habits. -/
def dZero : DailyRecord := { baseRec with sleep_hours := some 0 }

theorem C10_witness :
    (sleepPairs [dZero] = sleepPairs [] ∧
     sleep_counterfactual [dZero] = sleep_counterfactual []) ∧
    (dwPairs [dZero] = dwPairs [] ∧
     deep_work_counterfactual [dZero] = deep_work_counterfactual []) ∧
    habitsPairs [dZero] = (0, dZero.mood) :: habitsPairs [] :=
  ⟨(C10_zero_rows dZero []).1 rfl,
   (C10_zero_rows dZero []).2.1 rfl,
   (C10_zero_rows dZero []).2.2 rfl (by norm_num [dZero, baseRec])⟩

/-! ## Claim C9 -/

/-- C9: every counterfactual emitted by any of the three generators has its
`predicted_avg` within [1, 10]: the predicted value is clamped with
`max(1, min(10, ·))` before the 1-decimal rounding, and round-half-to-even
is monotone with fixed points at 1 and 10. -/
theorem C9_predicted_in_range (ds : List DailyRecord) (c : Counterfactual)
    (h : sleep_counterfactual ds = some c ∨ habits_counterfactual ds = some c ∨
         deep_work_counterfactual ds = some c) :
    1 ≤ c.predicted_avg ∧ c.predicted_avg ≤ 10 := by
  rcases h with h | h | h
  · simp only [sleep_counterfactual] at h
    split_ifs at h
    all_goals
      rw [Option.some.injEq] at h
      subst h
      exact pyRound_clamp_bounds _ 1
  · simp only [habits_counterfactual] at h
    split_ifs at h
    all_goals
      rw [Option.some.injEq] at h
      subst h
      exact pyRound_clamp_bounds _ 1
  · simp only [deep_work_counterfactual] at h
    split_ifs at h
    all_goals
      rw [Option.some.injEq] at h
      subst h
      exact pyRound_clamp_bounds _ 1

/-- Five days of paired sleep/mood data with slope 1. -/
def dsSleep : List DailyRecord :=
  [{ baseRec with mood := 5, sleep_hours := some 6 },
   { baseRec with mood := 6, sleep_hours := some 7 },
   { baseRec with mood := 7, sleep_hours := some 8 },
   { baseRec with mood := 5, sleep_hours := some 6 },
   { baseRec with mood := 6, sleep_hours := some 7 }]

/-- The counterfactual emitted on `dsSleep`: mean mood 5.8, mean sleep 6.8,
slope 1, predicted mood `5.8 + 1·(8 − 6.8) = 7`. -/
def cfSleep : Counterfactual :=
  { type := "sleep", current_avg := 29/5, predicted_avg := 7, change := 6/5,
    confidence := "low" }

theorem C9_witness : 1 ≤ cfSleep.predicted_avg ∧ cfSleep.predicted_avg ≤ 10 :=
  C9_predicted_in_range dsSleep cfSleep (Or.inl (by
    norm_num [sleep_counterfactual, sleepPairs, slopeOf, covL, mean, pvar,
      pyRound, roundHalfEven, Int.fract, dsSleep, cfSleep, baseRec,
      List.filterMap_cons]))

/-! ## Claim C5 -/

/-- C5: whenever the total mood-log count is below the mood minimum
(`ML_MIN_SAMPLES["mood"] = 30`), the prediction is the mean of the mood
values of the last 7 days (the fixed neutral default 7.0 when none exist),
with the baseline method `"simple_average"`, confidence exactly 0.3 and
`use_prediction = false` — for every target date (even an unparseable one)
and whatever the ensemble library would do. -/
theorem C5_baseline_mood (rf : Option ℚ) (logs : List MoodLog) (today : ℤ)
    (target : Option ℤ) (th : ℚ) (h : logs.length < 30) :
    predict_mood rf logs today target th =
      { prediction := simple_average_mood logs today
        confidence := 3/10
        method := "simple_average"
        use_prediction := some false } ∧
    simple_average_mood logs today =
      (if logs.filter (fun m => decide (today - 7 ≤ m.log_date)) = [] then 7
       else mean ((logs.filter
         (fun m => decide (today - 7 ≤ m.log_date))).map (·.mood_value))) := by
  constructor
  · simp only [predict_mood, if_pos h]
  · rfl

/-- Two mood logs, one inside the last-7-days window (value 6) and one
before it (value 8). -/
def mlogs2 : List MoodLog := [⟨0, 6⟩, ⟨-20, 8⟩]

theorem C5_witness :
    predict_mood none mlogs2 0 (some 3) (1/2) =
      { prediction := simple_average_mood mlogs2 0
        confidence := 3/10
        method := "simple_average"
        use_prediction := some false } ∧
    simple_average_mood mlogs2 0 = 6 := by
  have h := C5_baseline_mood none mlogs2 0 (some 3) (1/2) (by norm_num [mlogs2])
  refine ⟨h.1, ?_⟩
  rw [h.2]
  norm_num [mlogs2, mean]

/-! ## Claim C6 -/

/-- C6 (amended): for a habit log history at or above the habit minimum,
when no target time is supplied the returned prediction is the unweighted
arithmetic mean of the overall completion rate and the target-weekday
completion rate, rounded to 2 decimal places (the rounded overall rate alone
when no weekday-specific logs exist); a supplied target hour with no
matching logs leaves the prediction unchanged, while matching hour logs
average the result once more with the hour-specific rate. -/
theorem C6_habit_dow_average (logs : List HabitLog) (target : ℤ)
    (hmin : 20 ≤ logs.length) :
    (dowHabitLogs logs target ≠ [] →
       (habit_baseline logs target none).prediction =
         pyRound ((overallRate logs + overallRate (dowHabitLogs logs target)) / 2) 2) ∧
    (dowHabitLogs logs target = [] →
       (habit_baseline logs target none).prediction = pyRound (overallRate logs) 2) ∧
    (∀ h : ℕ, hourHabitLogs logs h = [] →
       (habit_baseline logs target (some h)).prediction =
         (habit_baseline logs target none).prediction) := by
  refine ⟨fun hne => ?_, fun he => ?_, fun h hh => ?_⟩
  · simp only [habit_baseline, if_neg hne]
  · simp only [habit_baseline, if_pos he]
  · simp only [habit_baseline, if_pos hh]

/-- The spec's habit example: 25 logs, 20 completed; 3 logs fall on the
target weekday (dates ≡ 0 mod 7), 2 of them completed. -/
def logs25 : List HabitLog :=
  [⟨0, true, none⟩, ⟨7, true, none⟩, ⟨14, false, none⟩,
   ⟨1, true, none⟩, ⟨1, true, none⟩, ⟨1, true, none⟩, ⟨1, true, none⟩,
   ⟨1, true, none⟩, ⟨1, true, none⟩, ⟨1, true, none⟩, ⟨1, true, none⟩,
   ⟨1, true, none⟩, ⟨1, true, none⟩, ⟨1, true, none⟩, ⟨1, true, none⟩,
   ⟨1, true, none⟩, ⟨1, true, none⟩, ⟨1, true, none⟩, ⟨1, true, none⟩,
   ⟨1, true, none⟩, ⟨1, true, none⟩,
   ⟨2, false, none⟩, ⟨2, false, none⟩, ⟨2, false, none⟩, ⟨2, false, none⟩]

/-- `logs25` with the first log carrying a 9 o'clock log time. -/
def logs25h : List HabitLog :=
  [⟨0, true, some 9⟩, ⟨7, true, none⟩, ⟨14, false, none⟩,
   ⟨1, true, none⟩, ⟨1, true, none⟩, ⟨1, true, none⟩, ⟨1, true, none⟩,
   ⟨1, true, none⟩, ⟨1, true, none⟩, ⟨1, true, none⟩, ⟨1, true, none⟩,
   ⟨1, true, none⟩, ⟨1, true, none⟩, ⟨1, true, none⟩, ⟨1, true, none⟩,
   ⟨1, true, none⟩, ⟨1, true, none⟩, ⟨1, true, none⟩, ⟨1, true, none⟩,
   ⟨1, true, none⟩, ⟨1, true, none⟩,
   ⟨2, false, none⟩, ⟨2, false, none⟩, ⟨2, false, none⟩, ⟨2, false, none⟩]

/-- C6 counterexample: on the spec's own 25-log example the returned
prediction is 0.73 — `round((0.8 + 2/3)/2, 2)` — which is not equal to the
exact unweighted mean `(0.8 + 2/3)/2 = 11/15 ≈ 0.7333`; and when a target
time with a matching log is supplied (here 09:00), the returned prediction
0.87 is no longer the weekday/overall mean at all. -/
theorem C6_counterexample :
    overallRate logs25 = 4/5 ∧
    (dowHabitLogs logs25 0).length = 3 ∧
    overallRate (dowHabitLogs logs25 0) = 2/3 ∧
    (habit_baseline logs25 0 none).prediction = 73/100 ∧
    (habit_baseline logs25 0 none).prediction ≠
      (overallRate logs25 + overallRate (dowHabitLogs logs25 0)) / 2 ∧
    (habit_baseline logs25h 0 (some 9)).prediction = 87/100 ∧
    (habit_baseline logs25h 0 (some 9)).prediction ≠
      pyRound ((overallRate logs25h + overallRate (dowHabitLogs logs25h 0)) / 2) 2 := by
  have hdow : dowHabitLogs logs25 0 =
      [⟨0, true, none⟩, ⟨7, true, none⟩, ⟨14, false, none⟩] := by decide
  have hdow2 : dowHabitLogs logs25h 0 =
      [⟨0, true, some 9⟩, ⟨7, true, none⟩, ⟨14, false, none⟩] := by decide
  have hhour : hourHabitLogs logs25h 9 = [⟨0, true, some 9⟩] := by decide
  have hcount : logs25.countP (·.completed) = 20 := by decide
  have hcount2 : logs25h.countP (·.completed) = 20 := by decide
  have hlen : logs25.length = 25 := by decide
  have hlen2 : logs25h.length = 25 := by decide
  have hor : overallRate logs25 = 4/5 := by
    unfold overallRate; rw [hcount, hlen]; norm_num
  have hor2 : overallRate logs25h = 4/5 := by
    unfold overallRate; rw [hcount2, hlen2]; norm_num
  have hdr : overallRate (dowHabitLogs logs25 0) = 2/3 := by
    rw [hdow]; unfold overallRate; norm_num
  have hdr2 : overallRate (dowHabitLogs logs25h 0) = 2/3 := by
    rw [hdow2]; unfold overallRate; norm_num
  have hhr : overallRate (hourHabitLogs logs25h 9) = 1 := by
    rw [hhour]; unfold overallRate; norm_num
  have hne : dowHabitLogs logs25 0 ≠ [] := by
    rw [hdow]; exact List.cons_ne_nil _ _
  have hne2 : dowHabitLogs logs25h 0 ≠ [] := by
    rw [hdow2]; exact List.cons_ne_nil _ _
  have hneh : hourHabitLogs logs25h 9 ≠ [] := by
    rw [hhour]; exact List.cons_ne_nil _ _
  have hp1 : (habit_baseline logs25 0 none).prediction =
      pyRound ((overallRate logs25 + overallRate (dowHabitLogs logs25 0)) / 2) 2 := by
    simp only [habit_baseline, if_neg hne]
  have hval1 : (habit_baseline logs25 0 none).prediction = 73/100 := by
    rw [hp1, hor, hdr]
    norm_num [pyRound, roundHalfEven, Int.fract]
  have hp2 : (habit_baseline logs25h 0 (some 9)).prediction =
      pyRound (((overallRate logs25h + overallRate (dowHabitLogs logs25h 0)) / 2 +
        overallRate (hourHabitLogs logs25h 9)) / 2) 2 := by
    simp only [habit_baseline, if_neg hne2, if_neg hneh]
  have hval2 : (habit_baseline logs25h 0 (some 9)).prediction = 87/100 := by
    rw [hp2, hor2, hdr2, hhr]
    norm_num [pyRound, roundHalfEven, Int.fract]
  refine ⟨hor, by rw [hdow]; rfl, hdr, hval1, ?_, hval2, ?_⟩
  · rw [hval1, hor, hdr]; norm_num
  · rw [hval2, hor2, hdr2]; norm_num [pyRound, roundHalfEven, Int.fract]

theorem C6_witness :
    20 ≤ logs25.length ∧
    dowHabitLogs logs25 0 ≠ [] ∧
    (habit_baseline logs25 0 none).prediction =
      pyRound ((overallRate logs25 + overallRate (dowHabitLogs logs25 0)) / 2) 2 := by
  have hlen : 20 ≤ logs25.length := by norm_num [logs25]
  have hne : dowHabitLogs logs25 0 ≠ [] := by
    norm_num [dowHabitLogs, logs25]
    exact List.cons_ne_nil _ _
  exact ⟨hlen, hne, (C6_habit_dow_average logs25 0 hlen).1 hne⟩

/-! ## Claim C8 -/

theorem npMedian_const (l : List ℚ) (c : ℚ) (hne : l ≠ [])
    (hc : ∀ x ∈ l, x = c) : npMedian l = c := by
  have hmem : ∀ x ∈ List.insertionSort (· ≤ ·) l, x = c := fun x hx =>
    hc x ((List.mem_insertionSort _).1 hx)
  have hlen : (List.insertionSort (· ≤ ·) l).length = l.length :=
    (List.perm_insertionSort _ l).length_eq
  have hpos : 0 < l.length := List.length_pos.2 hne
  simp only [npMedian]
  have hget : ∀ i, i < (List.insertionSort (· ≤ ·) l).length →
      (List.insertionSort (· ≤ ·) l).getD i 0 = c := by
    intro i hi
    rw [List.getD_eq_getElem _ _ hi]
    exact hmem _ (List.getElem_mem hi)
  split_ifs with hodd
  · exact hget _ (by omega)
  · rw [hget _ (by omega), hget _ (by omega)]
    ring

/-- `_stratified_analysis` on a constant treatment series: the median equals
the constant, so the `< median` group is empty and the explicit
stratification error is returned. -/
theorem stratified_const_err (ps : List (ℚ × ℚ)) (c : ℚ) (hne : ps ≠ [])
    (hc : ∀ p ∈ ps, p.1 = c) :
    stratified_analysis ps =
      .stratifyErr "Cannot stratify data — all values on one side of median." := by
  have hmed : npMedian (ps.map Prod.fst) = c := by
    apply npMedian_const
    · simp [hne]
    · intro x hx
      obtain ⟨p, hp, rfl⟩ := List.mem_map.1 hx
      exact hc p hp
  have hlow : lowGroup ps = [] := by
    unfold lowGroup
    rw [List.filter_eq_nil_iff.2, List.map_nil]
    intro p hp
    rw [hmed, hc p hp]
    simp
  simp only [stratified_analysis]
  rw [if_pos (Or.inr hlow)]

/-- C8: when every row of a dataset passing the causal-analysis gates has
the same treatment value, `get_causal_analysis` returns the structured
"cannot stratify" error object (the Lean model is a total function, so no
exception can be raised on this path). -/
theorem C8_constant_treatment (ds : List DailyRecord) (t o : Feature) (c : ℚ)
    (h15 : 15 ≤ ds.length)
    (hconst : ∀ d ∈ ds, rget d t = some c)
    (h10 : 10 ≤ (ds.filter (fun d =>
      (rget d t).isSome && (rget d o).isSome)).length) :
    get_causal_analysis ds t o =
      .stratifyErr "Cannot stratify data — all values on one side of median." := by
  simp only [get_causal_analysis]
  rw [if_neg (by omega), if_neg (by omega)]
  apply stratified_const_err _ c
  · intro hnil
    rw [List.map_eq_nil_iff] at hnil
    rw [hnil] at h10
    simp at h10
  · intro p hp
    obtain ⟨d, hd, rfl⟩ := List.mem_map.1 hp
    rw [hconst d (List.mem_of_mem_filter hd)]
    rfl

/-- Fifteen identical days, all with 7 recorded sleep hours. -/
def dsConst : List DailyRecord :=
  List.replicate 15 { baseRec with sleep_hours := some 7 }

theorem C8_witness :
    15 ≤ dsConst.length ∧
    10 ≤ (dsConst.filter (fun d =>
      (rget d .sleep_hours).isSome && (rget d .mood).isSome)).length ∧
    get_causal_analysis dsConst .sleep_hours .mood =
      .stratifyErr "Cannot stratify data — all values on one side of median." := by
  have h15 : 15 ≤ dsConst.length := by decide
  have hconst : ∀ d ∈ dsConst, rget d .sleep_hours = some 7 := by
    intro d hd
    rw [List.eq_of_mem_replicate hd]
    rfl
  have h10 : 10 ≤ (dsConst.filter (fun d =>
      (rget d .sleep_hours).isSome && (rget d .mood).isSome)).length := by decide
  exact ⟨h15, h10, C8_constant_treatment dsConst .sleep_hours .mood 7 h15 hconst h10⟩

/-! ## Claim C3 -/

/-- C3 (amended): when the number of energy-bearing entries (capped at the
last 90) is below the configured energy minimum of 40, the wired forecast
(`AdaptiveMLPredictor.forecast_energy`) assigns every requested day the flat
historical mean (5.0 when no entries exist) with confidence 0.3 and **no**
lower/upper band; the ±1 band belongs to the unwired standalone
`EnergyForecaster.forecast`, which emits it (without any confidence field)
only below its own hard-coded threshold of 7 entries. -/
theorem C3_low_data_energy (db : List JEntry) (today : ℤ) (days : ℕ) :
    ((energyEntries db).length < 40 →
       ∀ row ∈ (forecast_energy db today days).forecast,
         row.energy = pyRound (if energyEntries db = [] then 5
                               else mean (energyVals (energyEntries db))) 1 ∧
         row.confidence = some (3/10) ∧ row.lower = none ∧ row.upper = none) ∧
    ((energyEntries db).length < 7 →
       ∀ rows, (ef_forecast db today days).lowRows = some rows →
       ∀ row ∈ rows,
         row.energy = pyRound (if energyEntries db = [] then 5
                               else mean (energyVals (energyEntries db))) 1 ∧
         row.lower = pyRound ((if energyEntries db = [] then 5
                               else mean (energyVals (energyEntries db))) - 1) 1 ∧
         row.upper = pyRound ((if energyEntries db = [] then 5
                               else mean (energyVals (energyEntries db))) + 1) 1) := by
  constructor
  · intro h40 row hrow
    simp only [forecast_energy, if_pos h40] at hrow
    obtain ⟨i, hi, rfl⟩ := List.mem_map.1 hrow
    exact ⟨rfl, rfl, rfl, rfl⟩
  · intro h7 rows hrows row hrow
    simp only [ef_forecast, if_pos h7, EFOut.lowRows, Option.some.injEq] at hrows
    subst hrows
    obtain ⟨i, hi, rfl⟩ := List.mem_map.1 hrow
    exact ⟨rfl, rfl, rfl⟩

/-- Ten journal entries bearing energy values (alternating 5 and 6). -/
def db10 : List JEntry :=
  [⟨0, some 5⟩, ⟨1, some 6⟩, ⟨2, some 5⟩, ⟨3, some 6⟩, ⟨4, some 5⟩,
   ⟨5, some 6⟩, ⟨6, some 5⟩, ⟨7, some 6⟩, ⟨8, some 5⟩, ⟨9, some 6⟩]

/-- C3 counterexample: with 10 energy-bearing entries — below the energy
minimum of 40 — the wired forecast emits flat rows with confidence 0.3 but
**no** lower/upper band at all, and the standalone `EnergyForecaster` is
already in its day-of-week branch (its threshold is 7, not the configured
40), so under neither implementation does a below-40 call produce the
claimed flat forecast with confidence 0.3 *and* a ±1 band. -/
theorem C3_counterexample :
    (energyEntries db10).length = 10 ∧
    (forecast_energy db10 0 3).forecast.map (fun r => r.lower) =
      [none, none, none] ∧
    (forecast_energy db10 0 3).forecast.map (fun r => r.upper) =
      [none, none, none] ∧
    (forecast_energy db10 0 3).forecast.map (fun r => r.confidence) =
      [some (3/10), some (3/10), some (3/10)] ∧
    (ef_forecast db10 0 3).lowRows = none := by
  have hlen : (energyEntries db10).length = 10 := by decide
  have hrange : List.range 3 = [0, 1, 2] := rfl
  refine ⟨hlen, ?_, ?_, ?_, ?_⟩
  · simp only [forecast_energy, hlen, if_pos (by norm_num : (10:ℕ) < 40), hrange]
    rfl
  · simp only [forecast_energy, hlen, if_pos (by norm_num : (10:ℕ) < 40), hrange]
    rfl
  · simp only [forecast_energy, hlen, if_pos (by norm_num : (10:ℕ) < 40), hrange]
    rfl
  · simp only [ef_forecast, hlen, if_neg (by norm_num : ¬ (10:ℕ) < 7)]
    rfl

/-- Three journal entries bearing energy values 4, 5, 7 (mean 16/3). -/
def db3 : List JEntry := [⟨0, some 4⟩, ⟨1, some 5⟩, ⟨2, some 7⟩]

theorem C3_witness :
    ((energyEntries db3).length < 40 ∧
     ∀ row ∈ (forecast_energy db3 0 2).forecast,
       row.energy = pyRound (if energyEntries db3 = [] then 5
                             else mean (energyVals (energyEntries db3))) 1 ∧
       row.confidence = some (3/10) ∧ row.lower = none ∧ row.upper = none) ∧
    ((energyEntries db3).length < 7 ∧
     ∀ rows, (ef_forecast db3 0 2).lowRows = some rows →
     ∀ row ∈ rows,
       row.energy = pyRound (if energyEntries db3 = [] then 5
                             else mean (energyVals (energyEntries db3))) 1 ∧
       row.lower = pyRound ((if energyEntries db3 = [] then 5
                             else mean (energyVals (energyEntries db3))) - 1) 1 ∧
       row.upper = pyRound ((if energyEntries db3 = [] then 5
                             else mean (energyVals (energyEntries db3))) + 1) 1) :=
  ⟨⟨by decide, (C3_low_data_energy db3 0 2).1 (by decide)⟩,
   ⟨by decide, (C3_low_data_energy db3 0 2).2 (by decide)⟩⟩

/-! ## Claim C2 -/

/-- The spec's `method` enum. -/
def methodEnum : List String :=
  ["default", "simple_average", "day_of_week_average", "overall_average",
   "historical_baseline", "random_forest", "overall_historical", "no_data"]

theorem mood_baseline_shape (logs : List MoodLog) (t : ℤ) :
    (mood_baseline logs t).method ∈ methodEnum ∧
    (mood_baseline logs t).use_prediction = none := by
  simp only [mood_baseline]
  split_ifs <;> simp [methodEnum]

/-- C2 (amended): a mood prediction's `method` is one of the enum values or
`"fallback"` (the latter exactly on the unparseable-date path), and its
`use_prediction` key is present except when the call reaches the n ≥ 100
ensemble path and the ensemble step raises — the handler then returns the
day-of-week baseline dict, which carries no `use_prediction`.  A habit
prediction never contains `use_prediction`; its `method` is in the enum; and
a habit call that reaches date parsing (habit found, ≥ 20 logs) with an
unparseable date raises a `ValueError` (modelled as `none`) instead of
returning a result object. -/
theorem C2_result_shape (rf : Option ℚ) (logs : List MoodLog) (today : ℤ)
    (target : Option ℤ) (th : ℚ) (habit : Option (List HabitLog))
    (htarget : Option ℤ) (hhour : Option ℕ) :
    ((predict_mood rf logs today target th).method ∈ methodEnum ∨
       (predict_mood rf logs today target th).method = "fallback") ∧
    ((predict_mood rf logs today target th).use_prediction = none →
       100 ≤ logs.length ∧ rf = none ∧ target ≠ none) ∧
    (∀ r, predict_habit_success habit htarget hhour = some r →
       r.use_prediction = none ∧ r.method ∈ methodEnum) ∧
    (predict_habit_success habit htarget hhour = none →
       ∃ hlogs, habit = some hlogs ∧ 20 ≤ hlogs.length ∧ htarget = none) := by
  refine ⟨?_, ?_, ?_, ?_⟩
  · simp only [predict_mood]
    by_cases h30 : logs.length < 30
    · rw [if_pos h30]; left; simp [methodEnum]
    · rw [if_neg h30]
      cases target with
      | none => right; rfl
      | some t =>
        simp only
        by_cases h100 : logs.length < 100
        · rw [if_pos h100]; left; exact (mood_baseline_shape logs t).1
        · rw [if_neg h100]
          simp only [ml_mood_prediction]
          rw [if_neg h100]
          cases rf with
          | none => left; exact (mood_baseline_shape logs t).1
          | some v => left; simp [methodEnum]
  · simp only [predict_mood]
    by_cases h30 : logs.length < 30
    · rw [if_pos h30]; intro h; exact absurd h (by simp)
    · rw [if_neg h30]
      cases target with
      | none => intro h; exact absurd h (by simp)
      | some t =>
        simp only
        by_cases h100 : logs.length < 100
        · rw [if_pos h100]; intro h; exact absurd h (by simp)
        · rw [if_neg h100]
          simp only [ml_mood_prediction]
          rw [if_neg h100]
          cases rf with
          | none =>
            intro _
            exact ⟨by omega, rfl, by simp⟩
          | some v => intro h; exact absurd h (by simp)
  · intro r hr
    cases habit with
    | none =>
      simp only [predict_habit_success, Option.some.injEq] at hr
      subst hr
      exact ⟨rfl, by simp [methodEnum]⟩
    | some hlogs =>
      simp only [predict_habit_success] at hr
      split_ifs at hr with h20 hnil
      · rw [Option.some.injEq] at hr
        subst hr
        exact ⟨rfl, by simp [methodEnum]⟩
      · rw [Option.some.injEq] at hr
        subst hr
        exact ⟨rfl, by simp [methodEnum]⟩
      · cases htarget with
        | none => exact absurd hr (by simp)
        | some t =>
          rw [Option.some.injEq] at hr
          subst hr
          exact ⟨rfl, by simp [habit_baseline, methodEnum]⟩
  · intro hnone
    cases habit with
    | none =>
      simp only [predict_habit_success] at hnone
      exact absurd hnone (by simp)
    | some hlogs =>
      simp only [predict_habit_success] at hnone
      split_ifs at hnone with h20 hnil
      all_goals
        cases htarget with
        | none => exact ⟨hlogs, rfl, by omega, rfl⟩
        | some t => exact absurd hnone (by simp)

/-- Thirty mood logs, enough to pass the mood minimum. -/
def logs30 : List MoodLog := List.replicate 30 ⟨0, 7⟩

/-- The habit result returned when the habit name is unknown. -/
def hb0 : HabitPredResult :=
  { prediction := 1/2, confidence := 0, method := "no_data",
    use_prediction := none, streak := none }

/-- C2 counterexample: a mood prediction with an unparseable target date
returns method `"fallback"`, which is not in the claimed enum; and a habit
prediction (here: unknown habit name) carries no `use_prediction` key at
all, while the claim requires a boolean `use_prediction` to be present in
every mood or habit prediction result. -/
theorem C2_counterexample :
    (predict_mood none logs30 0 none (1/2)).method = "fallback" ∧
    "fallback" ∉ methodEnum ∧
    predict_habit_success none (some 0) none = some hb0 ∧
    hb0.use_prediction = none := by
  refine ⟨?_, by decide, rfl, rfl⟩
  simp only [predict_mood, logs30]
  rw [if_neg (by simp)]

theorem C2_witness :
    ((predict_mood (some 6) [] 5 (some 3) (1/2)).method ∈ methodEnum ∨
       (predict_mood (some 6) [] 5 (some 3) (1/2)).method = "fallback") ∧
    (hb0.use_prediction = none ∧ hb0.method ∈ methodEnum) :=
  ⟨(C2_result_shape (some 6) [] 5 (some 3) (1/2) none (some 1) none).1,
   (C2_result_shape (some 6) [] 5 (some 3) (1/2) none (some 1) none).2.2.1 hb0 rfl⟩

/-! ## Correlation lemmas (claims C4 and C7) -/

theorem corr_mem_entry {ds : List DailyRecord} {e : CorrelationRecord}
    (h : e ∈ (get_correlations ds).correlations) :
    ∃ f, corrEntry ds f = some e := by
  simp only [get_correlations] at h
  split_ifs at h
  · exact absurd h (by simp)
  · rw [List.mem_insertionSort] at h
    obtain ⟨f, -, hf⟩ := List.mem_filterMap.1 h
    exact ⟨f, hf⟩

theorem corrEntry_some {ds : List DailyRecord} {f : Feature}
    {e : CorrelationRecord} (h : corrEntry ds f = some e) :
    e.feature = f ∧
    e.sample_size = (corrPairs ds f).length ∧
    5 ≤ e.sample_size ∧
    pvar ((corrPairs ds f).map Prod.fst) ≠ 0 ∧
    pvar ((corrPairs ds f).map Prod.snd) ≠ 0 ∧
    e.corrSq = (covL (corrPairs ds f)) ^ 2 /
      (pvar ((corrPairs ds f).map Prod.fst) *
       pvar ((corrPairs ds f).map Prod.snd)) ∧
    e.strength = correlation_strength_sq e.corrSq ∧
    e.significant = (if 1 ≤ e.corrSq then true
                     else decide (4 * (1 - e.corrSq) <
                       e.corrSq * ((e.sample_size : ℚ) - 2))) := by
  simp only [corrEntry] at h
  by_cases h5 : (corrPairs ds f).length < 5
  · rw [if_pos h5] at h
    exact absurd h (by simp)
  rw [if_neg h5] at h
  by_cases hvar : pvar ((corrPairs ds f).map Prod.fst) = 0 ∨
      pvar ((corrPairs ds f).map Prod.snd) = 0
  · rw [if_pos hvar] at h
    exact absurd h (by simp)
  rw [if_neg hvar] at h
  push_neg at hvar
  rw [Option.some.injEq] at h
  subst h
  refine ⟨rfl, rfl, ?_, hvar.1, hvar.2, rfl, rfl, rfl⟩
  show 5 ≤ (corrPairs ds f).length
  omega

/-- Entries of the correlation output have `r² ∈ [0, 1]`
(Cauchy–Schwarz). -/
theorem corr_entry_sq_bounds {ds : List DailyRecord} {e : CorrelationRecord}
    (h : e ∈ (get_correlations ds).correlations) :
    0 ≤ e.corrSq ∧ e.corrSq ≤ 1 := by
  obtain ⟨f, hf⟩ := corr_mem_entry h
  obtain ⟨-, -, -, hv1, hv2, hrsq, -, -⟩ := corrEntry_some hf
  have hp1 : 0 < pvar ((corrPairs ds f).map Prod.fst) :=
    lt_of_le_of_ne (pvar_nonneg _) (Ne.symm hv1)
  have hp2 : 0 < pvar ((corrPairs ds f).map Prod.snd) :=
    lt_of_le_of_ne (pvar_nonneg _) (Ne.symm hv2)
  constructor
  · rw [hrsq]
    exact div_nonneg (sq_nonneg _) (le_of_lt (mul_pos hp1 hp2))
  · rw [hrsq]
    exact (div_le_one (mul_pos hp1 hp2)).2 (covL_sq_le _)

/-- The real-valued Pearson coefficient of a correlation entry:
`r = sign(cov)·√(r²)`. -/
noncomputable def entryCorr (e : CorrelationRecord) : ℝ :=
  (if e.covPos then 1 else -1) * Real.sqrt (e.corrSq : ℝ)

/-- C7: every entry of the correlation output has its Pearson coefficient
within [-1, 1] (equivalently `r² ≤ 1`), and a candidate feature with fewer
than 5 paired samples, or whose paired feature series or paired mood series
has zero variance, never appears in the output list. -/
theorem C7_corr_bounds_and_skips :
    (∀ ds e, e ∈ (get_correlations ds).correlations →
       0 ≤ e.corrSq ∧ e.corrSq ≤ 1 ∧
       -1 ≤ entryCorr e ∧ entryCorr e ≤ 1) ∧
    (∀ ds f, ((corrPairs ds f).length < 5 ∨
        pvar ((corrPairs ds f).map Prod.fst) = 0 ∨
        pvar ((corrPairs ds f).map Prod.snd) = 0) →
       ∀ e ∈ (get_correlations ds).correlations, e.feature ≠ f) := by
  constructor
  · intro ds e he
    obtain ⟨h0, h1⟩ := corr_entry_sq_bounds he
    have hs1 : Real.sqrt (e.corrSq : ℝ) ≤ 1 :=
      Real.sqrt_le_one.2 (by exact_mod_cast h1)
    have hs0 : 0 ≤ Real.sqrt (e.corrSq : ℝ) := Real.sqrt_nonneg _
    refine ⟨h0, h1, ?_, ?_⟩ <;> unfold entryCorr <;> split_ifs <;> nlinarith
  · intro ds f hskip e he hfeat
    obtain ⟨g, hg⟩ := corr_mem_entry he
    have hgf : g = f := by
      have := (corrEntry_some hg).1
      rw [hfeat] at this
      exact this.symm
    subst hgf
    simp only [corrEntry] at hg
    rcases hskip with h5 | hv | hv
    · rw [if_pos h5] at hg
      exact absurd hg (by simp)
    · rw [if_neg, if_pos (Or.inl hv)] at hg
      · exact absurd hg (by simp)
      · intro hlt
        rw [if_pos hlt] at hg
        exact absurd hg (by simp)
    · rw [if_neg, if_pos (Or.inr hv)] at hg
      · exact absurd hg (by simp)
      · intro hlt
        rw [if_pos hlt] at hg
        exact absurd hg (by simp)

theorem diag_fst (l : List ℚ) : ((l.map (fun x => (x, x))).map Prod.fst) = l := by
  rw [List.map_map]
  show l.map (fun x => x) = l
  exact List.map_id' l

theorem diag_snd (l : List ℚ) : ((l.map (fun x => (x, x))).map Prod.snd) = l := by
  rw [List.map_map]
  show l.map (fun x => x) = l
  exact List.map_id' l

/-- The covariance of a series with itself is its variance. -/
theorem covL_diag (l : List ℚ) : covL (l.map (fun x => (x, x))) = pvar l := by
  unfold covL pvar
  rw [diag_fst, diag_snd, List.map_map]
  have h : ((fun p : ℚ × ℚ => (p.1 - mean l) * (p.2 - mean l)) ∘ fun x => (x, x)) =
      fun x => (x - mean l) ^ 2 := by
    funext x
    show (x - mean l) * (x - mean l) = (x - mean l) ^ 2
    ring
  rw [h]

/-- When every row's `energy` equals its `mood`, the energy pairs are the
diagonal pairs of the mood series. -/
theorem corrPairs_energy_lockstep {ds : List DailyRecord}
    (hds : ∀ d ∈ ds, d.energy = some d.mood) :
    corrPairs ds .energy = (ds.map (fun d => d.mood)).map (fun x => (x, x)) := by
  induction ds with
  | nil => rfl
  | cons d t ih =>
    have hd : d.energy = some d.mood := hds d (List.mem_cons_self _ _)
    have ht : ∀ x ∈ t, x.energy = some x.mood := fun x hx =>
      hds x (List.mem_cons_of_mem _ hx)
    simp only [corrPairs, List.filterMap_cons, rget, hd, Option.map_some',
      List.map_cons] at ih ⊢
    rw [ih ht]

/-- On a lockstep dataset the energy entry is computed with `r² = 1`. -/
theorem lockstep_entry {ds : List DailyRecord} (h10 : 10 ≤ ds.length)
    (hds : ∀ d ∈ ds, d.energy = some d.mood)
    (hvar : pvar (ds.map (fun d => d.mood)) ≠ 0) :
    corrEntry ds .energy = some
      { feature := .energy, corrSq := 1, covPos := true, strength := "strong",
        direction := "positive", significant := true,
        sample_size := ds.length } := by
  have hp := corrPairs_energy_lockstep hds
  have hlen : (corrPairs ds .energy).length = ds.length := by
    rw [hp]
    simp
  have hms : (corrPairs ds .energy).map Prod.fst = ds.map (fun d => d.mood) := by
    rw [hp, diag_fst]
  have hvs : (corrPairs ds .energy).map Prod.snd = ds.map (fun d => d.mood) := by
    rw [hp, diag_snd]
  have hcov : covL (corrPairs ds .energy) = pvar (ds.map (fun d => d.mood)) := by
    rw [hp, covL_diag]
  have hvpos : 0 < pvar (ds.map (fun d => d.mood)) :=
    lt_of_le_of_ne (pvar_nonneg _) (Ne.symm hvar)
  have hrsq : (covL (corrPairs ds .energy)) ^ 2 /
      (pvar ((corrPairs ds .energy).map Prod.fst) *
       pvar ((corrPairs ds .energy).map Prod.snd)) = 1 := by
    rw [hms, hvs, hcov, sq]
    exact div_self (ne_of_gt (mul_pos hvpos hvpos))
  simp only [corrEntry]
  rw [if_neg (by omega), if_neg (by rw [hms, hvs]; push_neg; exact ⟨hvar, hvar⟩)]
  rw [Option.some.injEq]
  rw [CorrelationRecord.mk.injEq]
  refine ⟨rfl, hrsq, ?_, ?_, ?_, ?_, hlen⟩
  · rw [hcov]
    simp [hvpos]
  · rw [hrsq]
    norm_num [correlation_strength_sq]
  · rw [hcov, if_pos hvpos]
  · rw [hrsq, if_pos le_rfl]

/-- C4: for every entry in the correlation output, the `significant` flag is
set exactly when `|t| > 2` for the t-statistic `t = r·√((n−2)/(1−r²))`
(with `r = entryCorr e`, the real-valued Pearson coefficient), where
`|r| = 1` (`r² = 1`, for which the source sets `t = inf`) counts as
significant; and a feature moving in perfect lockstep with mood (here:
`energy` equal to `mood` on every row, `n ≥ 10`, non-constant mood) appears
in the output with `strength = "strong"` and `significant = true`. -/
theorem C4_significance_rule :
    (∀ ds e, e ∈ (get_correlations ds).correlations →
       (e.significant = true ↔ (e.corrSq = 1 ∨
         2 < |entryCorr e * Real.sqrt (((e.sample_size : ℝ) - 2) /
           (1 - (e.corrSq : ℝ)))|))) ∧
    (∀ ds, 10 ≤ ds.length → (∀ d ∈ ds, d.energy = some d.mood) →
       pvar (ds.map (fun d => d.mood)) ≠ 0 →
       ∃ e ∈ (get_correlations ds).correlations,
         e.feature = .energy ∧ e.strength = "strong" ∧
         e.significant = true) := by
  constructor
  · intro ds e he
    obtain ⟨f, hf⟩ := corr_mem_entry he
    obtain ⟨-, -, h5, -, -, -, -, hsig⟩ := corrEntry_some hf
    obtain ⟨h0, h1⟩ := corr_entry_sq_bounds he
    rcases eq_or_lt_of_le h1 with heq | hlt
    · rw [hsig, if_pos (le_of_eq heq.symm)]
      simp [heq]
    · rw [hsig, if_neg (not_le.2 hlt)]
      rw [decide_eq_true_eq]
      have h1mr : (0:ℝ) < 1 - (e.corrSq : ℝ) := by
        have hc : (e.corrSq : ℝ) < 1 := by exact_mod_cast hlt
        linarith
      have h0r : (0:ℝ) ≤ (e.corrSq : ℝ) := by exact_mod_cast h0
      have habs : |entryCorr e * Real.sqrt (((e.sample_size : ℝ) - 2) /
          (1 - (e.corrSq : ℝ)))| =
          Real.sqrt ((e.corrSq : ℝ) * (((e.sample_size : ℝ) - 2) /
            (1 - (e.corrSq : ℝ)))) := by
        rw [Real.sqrt_mul h0r, abs_mul]
        congr 1
        · unfold entryCorr
          split_ifs
          · rw [one_mul, abs_of_nonneg (Real.sqrt_nonneg _)]
          · rw [neg_one_mul, abs_neg, abs_of_nonneg (Real.sqrt_nonneg _)]
        · exact abs_of_nonneg (Real.sqrt_nonneg _)
      rw [habs, mul_div_assoc']
      rw [Real.lt_sqrt (by norm_num : (0:ℝ) ≤ 2), lt_div_iff₀ h1mr]
      constructor
      · intro hq
        right
        have hr : ((4 * (1 - e.corrSq) : ℚ) : ℝ) <
            ((e.corrSq * ((e.sample_size : ℚ) - 2) : ℚ) : ℝ) := by
          exact_mod_cast hq
        push_cast at hr
        norm_num
        linarith
      · intro hor
        rcases hor with heq1 | hs
        · exact absurd heq1 (ne_of_lt hlt)
        · norm_num at hs
          have hr : ((4 * (1 - e.corrSq) : ℚ) : ℝ) <
              ((e.corrSq * ((e.sample_size : ℚ) - 2) : ℚ) : ℝ) := by
            push_cast
            linarith
          exact_mod_cast hr
  · intro ds h10 hds hvar
    refine ⟨{ feature := .energy, corrSq := 1, covPos := true,
              strength := "strong", direction := "positive",
              significant := true, sample_size := ds.length },
            ?_, rfl, rfl, rfl⟩
    simp only [get_correlations]
    rw [if_neg (by omega)]
    rw [List.mem_insertionSort]
    exact List.mem_filterMap.2
      ⟨.energy, by simp [featuresList], lockstep_entry h10 hds hvar⟩

/-- A lockstep row: `energy` recorded equal to `mood`. -/
def recME (m : ℚ) : DailyRecord := { baseRec with mood := m, energy := some m }

/-- Ten lockstep days with alternating moods 5 and 6. -/
def ds10 : List DailyRecord :=
  [recME 5, recME 6, recME 5, recME 6, recME 5,
   recME 6, recME 5, recME 6, recME 5, recME 6]

/-- The correlation entry produced for `energy` on `ds10`. -/
def e10 : CorrelationRecord :=
  { feature := .energy, corrSq := 1, covPos := true, strength := "strong",
    direction := "positive", significant := true, sample_size := 10 }

theorem e10_mem : e10 ∈ (get_correlations ds10).correlations := by
  have hds : ∀ d ∈ ds10, d.energy = some d.mood := by decide
  have h10 : (10:ℕ) ≤ ds10.length := by decide
  have hvar : pvar (ds10.map (fun d => d.mood)) ≠ 0 := by
    norm_num [ds10, recME, baseRec, pvar, mean]
  simp only [get_correlations]
  rw [if_neg (by decide)]
  rw [List.mem_insertionSort]
  exact List.mem_filterMap.2
    ⟨.energy, by simp [featuresList], lockstep_entry h10 hds hvar⟩

theorem C4_witness :
    (e10.significant = true ↔ (e10.corrSq = 1 ∨
       2 < |entryCorr e10 * Real.sqrt (((e10.sample_size : ℝ) - 2) /
         (1 - (e10.corrSq : ℝ)))|)) ∧
    (∃ e ∈ (get_correlations ds10).correlations,
       e.feature = .energy ∧ e.strength = "strong" ∧
       e.significant = true) := by
  have hds : ∀ d ∈ ds10, d.energy = some d.mood := by decide
  have h10 : (10:ℕ) ≤ ds10.length := by decide
  have hvar : pvar (ds10.map (fun d => d.mood)) ≠ 0 := by
    norm_num [ds10, recME, baseRec, pvar, mean]
  exact ⟨C4_significance_rule.1 ds10 e10 e10_mem,
         C4_significance_rule.2 ds10 h10 hds hvar⟩

theorem C7_witness :
    (0 ≤ e10.corrSq ∧ e10.corrSq ≤ 1 ∧
     -1 ≤ entryCorr e10 ∧ entryCorr e10 ≤ 1) ∧
    e10.feature ≠ .stress :=
  ⟨C7_corr_bounds_and_skips.1 ds10 e10 e10_mem,
   C7_corr_bounds_and_skips.2 ds10 .stress (Or.inl (by decide)) e10 e10_mem⟩
